import Mathlib

/-!
Verification of the IMF gadget API core: a shallow embedding of the
request-processing pipeline and gadget lifecycle state machine of the
imf-gadget-api repository (src/services/gadget-service.ts,
src/services/auth-service.ts, src/repositories/gadget-repository.ts,
src/middlewares/auth-middleware.ts, src/middlewares/validate-middleware.ts,
src/controllers/auth-controller.ts, src/routes/v1/gadget-routes.ts,
src/utils/helper.ts, src/utils/app-error.ts, prisma/schema.prisma).

External collaborators are abstracted exactly as the spec directs:
the persistence engine is a key-addressable store (a list of records
addressed by id), bcrypt is an abstract hash/compare pair of parameters,
jwt.sign is a constructor recording payload and expiry, and the
otp-generator library call is modelled over an abstract random source.
Timestamps are explicit parameters; createdAt/updatedAt bookkeeping
columns are owned by the store engine and are not referenced by any
business rule, so they are omitted from the record model.
-/

namespace ImfGadget

/-! ### Error model: utils/app-error.ts and http-status-codes constants -/

/-- One entry of the structured validation detail list produced by
validate-middleware.ts: a field name and a violation message. -/
structure FieldError where
  field : String
  message : String
deriving DecidableEq, Repr

/-- HTTP status code constants (http-status-codes) used by the services. -/
def OK : Nat := 200

/-- 201 Created. -/
def CREATED : Nat := 201

/-- 400 Bad Request. -/
def BAD_REQUEST : Nat := 400

/-- 401 Unauthorized. -/
def UNAUTHORIZED : Nat := 401

/-- 404 Not Found. -/
def NOT_FOUND : Nat := 404

/-- 409 Conflict. -/
def CONFLICT : Nat := 409

/-- 500 Internal Server Error. -/
def INTERNAL_SERVER_ERROR : Nat := 500

/-- AppError from utils/app-error.ts: message, statusCode and optional
details (the details field defaults to undefined in the source; here the
empty list). The isOperational flag defaults to true everywhere in the
repository and is never read, so it is not modelled. -/
structure AppError where
  message : String
  statusCode : Nat
  details : List FieldError := []
deriving DecidableEq, Repr

/-! ### Data model: prisma/schema.prisma -/

/-- The closed GadgetStatus enumeration from prisma/schema.prisma. -/
inductive GadgetStatus where
  | Available
  | Deployed
  | Destroyed
  | Decommissioned
deriving DecidableEq, Repr

/-- The Gadget model from prisma/schema.prisma: id, name, unique codename,
status (default Available) and the nullable decommissionedAt timestamp.
Timestamps are natural numbers; createdAt/updatedAt are store-managed
bookkeeping not referenced by any claim and are omitted. -/
structure Gadget where
  id : String
  name : String
  codename : String
  status : GadgetStatus
  decommissionedAt : Option Nat
deriving DecidableEq, Repr

/-- The User model from prisma/schema.prisma: id, unique email, hashed
password (createdAt/updatedAt omitted as above). -/
structure User where
  id : String
  email : String
  password : String
deriving DecidableEq, Repr

/-- A User projection with the password field omitted, as produced by the
destructuring in auth-service.ts (`const ... = user` dropping password). -/
structure UserView where
  id : String
  email : String
deriving DecidableEq, Repr

/-- The password-omitting projection performed by UserService.signUp and
UserService.signIn before returning a user. -/
def omitPassword (u : User) : UserView :=
  { id := u.id, email := u.email }

/-! ### Gadget repository: repositories/gadget-repository.ts over a
key-addressable store (a list of gadget records addressed by id) -/

/-- GadgetRepository.findById: prisma.gadget.findUnique on the id key. -/
def findById (store : List Gadget) (id : String) : Option Gadget :=
  store.find? (fun g => g.id == id)

/-- Prisma.GadgetUpdateInput as used through `updateGadget`: every field
is optional; an absent field is left untouched by the store. -/
structure GadgetUpdateInput where
  name : Option String := none
  codename : Option String := none
  status : Option GadgetStatus := none
  decommissionedAt : Option (Option Nat) := none
deriving DecidableEq, Repr

/-- How the store applies a partial update payload to a record: supplied
fields overwrite, absent fields are kept (prisma.gadget.update data). -/
def applyUpdate (u : GadgetUpdateInput) (g : Gadget) : Gadget :=
  { g with
      name := u.name.getD g.name
      codename := u.codename.getD g.codename
      status := u.status.getD g.status
      decommissionedAt := u.decommissionedAt.getD g.decommissionedAt }

/-- The store rewriting the record addressed by `id` with `f`. -/
def updateWhere (store : List Gadget) (id : String) (f : Gadget → Gadget) :
    List Gadget :=
  store.map (fun g => if g.id == id then f g else g)

/-- GadgetRepository.update: update the record with the given id,
returning the updated record, or null (none) when the id is absent —
the contract declared by the repository (`Promise<Gadget | null>`,
"otherwise null"). -/
def repoUpdate (store : List Gadget) (id : String) (u : GadgetUpdateInput) :
    Option Gadget × List Gadget :=
  match findById store id with
  | none => (none, store)
  | some g => (some (applyUpdate u g), updateWhere store id (applyUpdate u))

/-- The single transition written by GadgetRepository.decommission:
status := Decommissioned and decommissionedAt := new Date(), one atomic
store write. -/
def applyDecommission (now : Nat) (g : Gadget) : Gadget :=
  { g with status := GadgetStatus.Decommissioned, decommissionedAt := some now }

/-- GadgetRepository.decommission: one prisma.gadget.update setting both
status and decommissionedAt; null (none) when the id is absent. -/
def repoDecommission (store : List Gadget) (id : String) (now : Nat) :
    Option Gadget × List Gadget :=
  match findById store id with
  | none => (none, store)
  | some g =>
      (some (applyDecommission now g), updateWhere store id (applyDecommission now))

/-- The transition written by GadgetRepository.selfDestruct: only
status := Destroyed; decommissionedAt is not touched. -/
def applySelfDestruct (g : Gadget) : Gadget :=
  { g with status := GadgetStatus.Destroyed }

/-- GadgetRepository.selfDestruct: one prisma.gadget.update setting
status to Destroyed; null (none) when the id is absent. -/
def repoSelfDestruct (store : List Gadget) (id : String) :
    Option Gadget × List Gadget :=
  match findById store id with
  | none => (none, store)
  | some g => (some (applySelfDestruct g), updateWhere store id applySelfDestruct)

/-- GadgetRepository.create / prisma defaults: a fresh gadget starts with
status Available and a null decommissionedAt. -/
def mkGadget (id name codename : String) : Gadget :=
  { id := id, name := name, codename := codename,
    status := GadgetStatus.Available, decommissionedAt := none }

/-! ### Gadget service: services/gadget-service.ts -/

/-- The AppError thrown by the gadget service when a gadget id is absent. -/
def gadgetNotFound : AppError :=
  { message := "Gadget not found", statusCode := NOT_FOUND }

/-- The AppError thrown by decommissionGadget on a redundant transition. -/
def alreadyDecommissioned : AppError :=
  { message := "Gadget is already decommissioned", statusCode := BAD_REQUEST }

/-- The AppError thrown by triggerSelfDestruct on a redundant transition. -/
def alreadyDestroyed : AppError :=
  { message := "Gadget is already destroyed", statusCode := BAD_REQUEST }

/-- GadgetService.updateGadget: calls the repository update and throws
NotFound when it reports a missing record; otherwise returns the updated
record. There is no guard on the payload (notably no rejection of a
status equal to the current one). -/
def updateGadget (store : List Gadget) (id : String) (updates : GadgetUpdateInput) :
    Except AppError Gadget × List Gadget :=
  match repoUpdate store id updates with
  | (none, s) => (Except.error gadgetNotFound, s)
  | (some g, s) => (Except.ok g, s)

/-- GadgetService.decommissionGadget: findById, NotFound when missing,
BadRequest when the status is already Decommissioned, otherwise the
repository decommission write whose (nullable) result is returned as is. -/
def decommissionGadget (store : List Gadget) (id : String) (now : Nat) :
    Except AppError (Option Gadget) × List Gadget :=
  match findById store id with
  | none => (Except.error gadgetNotFound, store)
  | some g =>
      if g.status = GadgetStatus.Decommissioned then
        (Except.error alreadyDecommissioned, store)
      else
        let rs := repoDecommission store id now
        (Except.ok rs.1, rs.2)

/-- Model of the otp-generator generate(6, no upper, no lower, no special)
call in utils/helper.ts (generateConfirmationCode): with every alphabet
and special-character class disabled, each of the 6 positions draws one
decimal digit from the library's random source, modelled as `seed`. -/
def generateConfirmationCode (seed : Nat → Nat) : String :=
  String.mk ((List.range 6).map (fun i => Nat.digitChar (seed i % 10)))

/-- The value returned by GadgetService.triggerSelfDestruct: the spread of
the (nullable) repository result together with the confirmation code. -/
structure SelfDestructResult where
  gadget : Option Gadget
  confirmationCode : String
deriving DecidableEq, Repr

/-- GadgetService.triggerSelfDestruct: findById, NotFound when missing,
BadRequest when already Destroyed, otherwise generate a confirmation code,
perform the repository selfDestruct write and return both. -/
def triggerSelfDestruct (store : List Gadget) (id : String) (seed : Nat → Nat) :
    Except AppError SelfDestructResult × List Gadget :=
  match findById store id with
  | none => (Except.error gadgetNotFound, store)
  | some g =>
      if g.status = GadgetStatus.Destroyed then
        (Except.error alreadyDestroyed, store)
      else
        let code := generateConfirmationCode seed
        let rs := repoSelfDestruct store id
        (Except.ok { gadget := rs.1, confirmationCode := code }, rs.2)

/-! ### User repository and auth service: repositories/user-repository.ts,
services/auth-service.ts, utils/helper.ts -/

/-- UserRepository.findByEmail: prisma.user.findUnique on the email key. -/
def findByEmail (store : List User) (email : String) : Option User :=
  store.find? (fun u => u.email == email)

/-- The credential payload received by signUp and signIn (request body). -/
structure UserInput where
  email : String
  password : String
deriving DecidableEq, Repr

/-- Model of the jwt.sign call in utils/helper.ts (generateToken): the
signed token records the payload id and the fixed expiresIn option; the
HMAC signature over the server secret is the external primitive and
carries no further information. -/
structure SignedToken where
  payloadId : String
  expiresIn : String
deriving DecidableEq, Repr

/-- generateToken from utils/helper.ts: jwt.sign with payload id
userId and option expiresIn 1d. -/
def generateToken (userId : String) : SignedToken :=
  { payloadId := userId, expiresIn := "1d" }

/-- The AppError thrown by UserService.signUp on a duplicate email. -/
def emailConflict : AppError :=
  { message := "User with the email address already exists. Please use a different email or sign in",
    statusCode := CONFLICT }

/-- The AppError thrown by UserService.signIn on an unknown email. -/
def userNotFound : AppError :=
  { message := "User with this email address does not exists. Please use a different email or sign up",
    statusCode := NOT_FOUND }

/-- The AppError thrown by UserService.signIn on a failed hash comparison. -/
def invalidCredentials : AppError :=
  { message := "Invalid Credentials", statusCode := UNAUTHORIZED }

/-- UserService.signUp: findByEmail, Conflict when a user exists (no store
write), otherwise hash the password, create the user (the store assigns
the fresh identifier `newId`) and return it with the password omitted.
`hash` is the external bcrypt hash primitive. -/
def userSignUp (hash : String → String) (newId : String) (store : List User)
    (input : UserInput) : Except AppError UserView × List User :=
  match findByEmail store input.email with
  | some _ => (Except.error emailConflict, store)
  | none =>
      let created : User :=
        { id := newId, email := input.email, password := hash input.password }
      (Except.ok (omitPassword created), store ++ [created])

/-- UserService.signIn: findByEmail, NotFound when missing, Unauthorized
when the hash comparison fails, otherwise a token bound to the user id
and the password-omitted identity. `compare` is the external bcrypt
compare primitive. -/
def userSignIn (compare : String → String → Bool) (store : List User)
    (input : UserInput) : Except AppError (UserView × SignedToken) :=
  match findByEmail store input.email with
  | none => Except.error userNotFound
  | some u =>
      if compare input.password u.password then
        Except.ok (omitPassword u, generateToken u.id)
      else
        Except.error invalidCredentials

/-! ### Sign-in controller: controllers/auth-controller.ts -/

/-- The cookie options passed to res.cookie in the signIn controller. -/
structure CookieOptions where
  httpOnly : Bool
  secure : Bool
  sameSite : String
  maxAge : Nat
deriving DecidableEq, Repr

/-- A Set-Cookie produced by the controller: name, value (the signed
token) and options. -/
structure SetCookie where
  cookieName : String
  value : SignedToken
  options : CookieOptions
deriving DecidableEq, Repr

/-- The HTTP response assembled by the signIn controller: the cookie, the
status code and the SuccessResponse body whose data is the object
containing both the user view and the token. -/
structure SignInHttpResponse where
  statusCode : Nat
  cookie : SetCookie
  bodySuccess : Bool
  bodyMessage : String
  bodyDataUser : UserView
  bodyDataToken : SignedToken
deriving DecidableEq, Repr

/-- The signIn controller from controllers/auth-controller.ts: delegates
to UserService.signIn, then sets the token cookie (httpOnly, secure only
in production, sameSite strict, maxAge 3600000) and replies 200 with
SuccessResponse carrying the object of user and token as data. Errors are
passed to the global error handler unchanged. -/
def signInController (compare : String → String → Bool) (store : List User)
    (input : UserInput) (isProduction : Bool) :
    Except AppError SignInHttpResponse :=
  match userSignIn compare store input with
  | Except.error e => Except.error e
  | Except.ok out =>
      Except.ok
        { statusCode := OK,
          cookie :=
            { cookieName := "token", value := out.2,
              options :=
                { httpOnly := true, secure := isProduction,
                  sameSite := "strict", maxAge := 3600000 } },
          bodySuccess := true,
          bodyMessage := "User successfully logged in",
          bodyDataUser := out.1,
          bodyDataToken := out.2 }

/-! ### Authentication gate: middlewares/auth-middleware.ts -/

/-- The outcome of the external jwt.verify primitive on a token string:
either a decoded payload whose id field may be missing, or a thrown error
identified, as in the source, by its name. -/
inductive VerifyResult where
  | ok (payloadId : Option String)
  | err (errorName : String)
deriving DecidableEq, Repr

/-- AppError for a request carrying no token cookie. -/
def noTokenError : AppError :=
  { message := "No token provided. Please log in", statusCode := UNAUTHORIZED }

/-- AppError for a decoded payload missing the user id. -/
def invalidTokenStructure : AppError :=
  { message := "Invalid JWT Token structure", statusCode := UNAUTHORIZED }

/-- AppError for a JsonWebTokenError (malformed token or bad signature). -/
def invalidTokenError : AppError :=
  { message := "Authentication failed. Invalid token.", statusCode := UNAUTHORIZED }

/-- AppError for a TokenExpiredError. -/
def expiredTokenError : AppError :=
  { message := "Authentication failed. Token has expired.",
    statusCode := UNAUTHORIZED }

/-- AppError for any other error thrown during verification. -/
def authUnexpectedError : AppError :=
  { message := "Authentication failed due to an unexpected server error.",
    statusCode := INTERNAL_SERVER_ERROR }

/-- verifyJwtToken from middlewares/auth-middleware.ts: no cookie fails
with 401; a decoded payload without id fails with 401; a thrown
JsonWebTokenError or TokenExpiredError fails with 401; any other thrown
error fails with the 500 AppError; otherwise the user id is exposed. -/
def verifyJwtToken (verify : String → VerifyResult) (token : Option String) :
    Except AppError String :=
  match token with
  | none => Except.error noTokenError
  | some t =>
      match verify t with
      | VerifyResult.ok none => Except.error invalidTokenStructure
      | VerifyResult.ok (some uid) => Except.ok uid
      | VerifyResult.err n =>
          if n = "JsonWebTokenError" then Except.error invalidTokenError
          else if n = "TokenExpiredError" then Except.error expiredTokenError
          else Except.error authUnexpectedError

/-- The gadget router pipeline (routes/v1/gadget-routes.ts): the router
applies verifyJwtToken before every gadget handler; a middleware error is
passed to the global error handler and the handler never runs. -/
def gadgetRoutePipeline {α : Type} (verify : String → VerifyResult)
    (token : Option String) (handler : String → Except AppError α) :
    Except AppError α :=
  match verifyJwtToken verify token with
  | Except.error e => Except.error e
  | Except.ok uid => handler uid

/-! ### Validation layer: middlewares/validate-middleware.ts and
schemas/gadget-schema.ts, and the PATCH gadget route -/

/-- The raw key/value data of one request region (body or path params) as
seen by the update-gadget schema: each of the three keys it knows may be
absent. -/
structure RawUpdateRequest where
  id : Option String := none
  name : Option String := none
  status : Option String := none
deriving DecidableEq, Repr

/-- A character allowed inside a UUID group. -/
def isHexDigit (c : Char) : Bool :=
  c.isDigit || ('a' ≤ c && c ≤ 'f') || ('A' ≤ c && c ≤ 'F')

/-- Syntactic UUID check used by the z.string().uuid() refinement: 36
characters in the 8-4-4-4-12 hyphenated hexadecimal layout. -/
def isUuidFormat (s : String) : Bool :=
  let cs := s.toList
  cs.length == 36 &&
    (List.range 36).all (fun i =>
      let c := cs.getD i ' '
      if i == 8 || i == 13 || i == 18 || i == 23 then c == '-'
      else isHexDigit c)

/-- The decoding of a raw status string into the GadgetStatus enum, as
z.enum over Object.values(GadgetStatus) accepts exactly the enum names. -/
def statusFromString (s : String) : Option GadgetStatus :=
  if s = "Available" then some GadgetStatus.Available
  else if s = "Deployed" then some GadgetStatus.Deployed
  else if s = "Destroyed" then some GadgetStatus.Destroyed
  else if s = "Decommissioned" then some GadgetStatus.Decommissioned
  else none

/-- The violations of updateGadgetSchema (schemas/gadget-schema.ts) on one
request region, one FieldError per violated constraint in the shape order
of the schema: optional name of at most 255 characters, required UUID id,
optional status in the GadgetStatus enum. Messages are the custom ones of
the schema; a missing required key gets the library's Required message. -/
def updateGadgetSchemaIssues (r : RawUpdateRequest) : List FieldError :=
  (match r.name with
   | some n =>
       if n.length > 255 then [{ field := "name", message := "Name is too long." }]
       else []
   | none => []) ++
  (match r.id with
   | none => [{ field := "id", message := "Required" }]
   | some i =>
       if isUuidFormat i then []
       else [{ field := "id", message := "Invalid gadget ID format." }]) ++
  (match r.status with
   | some s =>
       if (statusFromString s).isSome then []
       else [{ field := "status", message := "Invalid enum value" }]
   | none => [])

/-- The AppError raised by the validate middleware on a schema failure:
message Validation Failed, status 400, carrying the field/message list. -/
def validationFailed (errs : List FieldError) : AppError :=
  { message := "Validation Failed", statusCode := BAD_REQUEST, details := errs }

/-- The validate middleware from middlewares/validate-middleware.ts
applied to one region: parse against the schema; on any issues raise the
ValidationFailed AppError carrying the structured list, otherwise pass. -/
def validateUpdateRegion (r : RawUpdateRequest) : Except AppError Unit :=
  match updateGadgetSchemaIssues r with
  | [] => Except.ok ()
  | errs => Except.error (validationFailed errs)

/-- The conversion of the raw request body into the update payload handed
to the service by the updateGadget controller (req.body forwarded as
Partial of Gadget; a present status string names an enum member on every
path reachable through a well-formed client). -/
def bodyToUpdateInput (body : RawUpdateRequest) : GadgetUpdateInput :=
  { name := body.name, codename := none,
    status := body.status.bind statusFromString, decommissionedAt := none }

/-- The PATCH /:id gadget route from routes/v1/gadget-routes.ts as the
source wires it: validate(updateGadgetSchema, params) and then the
updateGadget controller; the request body is passed to the handler
without being validated. (Authentication is applied before this and is
modelled separately by gadgetRoutePipeline.) -/
def patchGadgetRoute (store : List Gadget) (params body : RawUpdateRequest) :
    Except AppError Gadget × List Gadget :=
  match validateUpdateRegion params with
  | Except.error e => (Except.error e, store)
  | Except.ok _ => updateGadget store (params.id.getD "") (bodyToUpdateInput body)

/-! ### Single-gadget lifecycle relation (the dedicated operations) -/

/-- One dedicated lifecycle transition on a single gadget record, exactly
as the guarded service operations write it: a decommission when the status
is not already Decommissioned, a self-destruct when the status is not
already Destroyed. -/
inductive LifecycleStep : Gadget → Gadget → Prop where
  | decommission (t : Nat) (g : Gadget)
      (h : g.status ≠ GadgetStatus.Decommissioned) :
      LifecycleStep g (applyDecommission t g)
  | selfDestruct (g : Gadget) (h : g.status ≠ GadgetStatus.Destroyed) :
      LifecycleStep g (applySelfDestruct g)

/-- Reachability through the dedicated lifecycle operations. -/
def LifecycleReachable : Gadget → Gadget → Prop :=
  Relation.ReflTransGen LifecycleStep

/-! ### Store lemmas -/

/-- Looking up the updated id after an id-preserving rewrite finds the
rewritten record. -/
theorem findById_updateWhere (store : List Gadget) (id : String)
    (f : Gadget → Gadget) (hf : ∀ g, (f g).id = g.id) :
    findById (updateWhere store id f) id = (findById store id).map f := by
  induction store with
  | nil => rfl
  | cons g rest ih =>
      by_cases h : (g.id == id) = true
      · have hfg : ((f g).id == id) = true := by rw [hf]; exact h
        rw [findById, updateWhere, List.map_cons, if_pos h,
            List.find?_cons_of_pos (p := fun x : Gadget => x.id == id) _ hfg, findById,
            List.find?_cons_of_pos (p := fun x : Gadget => x.id == id) _ h]
        rfl
      · rw [findById, updateWhere, List.map_cons, if_neg h,
            List.find?_cons_of_neg (p := fun x : Gadget => x.id == id) _ h, findById,
            List.find?_cons_of_neg (p := fun x : Gadget => x.id == id) _ h]
        simpa [findById, updateWhere] using ih

/-- Appending a record with the sought email to a store that does not
contain it makes the lookup find that record. -/
theorem findByEmail_append (store : List User) (u : User) (e : String)
    (h : findByEmail store e = none) (hu : (u.email == e) = true) :
    findByEmail (store ++ [u]) e = some u := by
  induction store with
  | nil =>
      unfold findByEmail
      rw [List.nil_append, List.find?_cons_of_pos (p := fun x : User => x.email == e) _ hu]
  | cons v rest ih =>
      unfold findByEmail at h ⊢
      rw [List.cons_append]
      by_cases hv : (v.email == e) = true
      · rw [List.find?_cons_of_pos (p := fun x : User => x.email == e) _ hv] at h
        cases h
      · rw [List.find?_cons_of_neg (p := fun x : User => x.email == e) _ hv] at h
        rw [List.find?_cons_of_neg (p := fun x : User => x.email == e) _ hv]
        exact ih h

/-- Every decimal digit drawn by the confirmation-code generator renders
as a digit character. -/
theorem digitChar_mod_isDigit (n : Nat) : (Nat.digitChar (n % 10)).isDigit = true := by
  have h10 : n % 10 < 10 := Nat.mod_lt _ (by norm_num)
  revert h10
  generalize n % 10 = d
  intro h10
  interval_cases d <;> decide

/-- The confirmation code has exactly 6 characters. -/
theorem generateConfirmationCode_length (seed : Nat → Nat) :
    (generateConfirmationCode seed).length = 6 := rfl

/-- Every character of the confirmation code is a decimal digit. -/
theorem generateConfirmationCode_digits (seed : Nat → Nat) :
    ∀ c ∈ (generateConfirmationCode seed).toList, c.isDigit = true := by
  intro c hc
  have hl : (generateConfirmationCode seed).toList =
      (List.range 6).map (fun i => Nat.digitChar (seed i % 10)) := rfl
  rw [hl] at hc
  obtain ⟨i, _, rfl⟩ := List.mem_map.mp hc
  exact digitChar_mod_isDigit (seed i)

/-! ### Concrete fixtures used by witnesses and counterexamples -/

/-- A freshly created sample gadget (status Available, no decommission
timestamp, as the repository create writes it). -/
def g0 : Gadget :=
  { id := "g-1", name := "Voice Changer", codename := "The Brave Eagle",
    status := GadgetStatus.Available, decommissionedAt := none }

/-- A concrete random source for the confirmation-code generator. -/
def seed0 : Nat → Nat := fun _ => 0

/-- A concrete behaviour of the external bcrypt compare primitive: the
candidate matches exactly the stored credential. -/
def bcryptEq : String → String → Bool := fun a b => a == b

/-- A concrete behaviour of the external bcrypt hash primitive. -/
def demoHash : String → String := fun s => String.append "hashed-" s

/-- A stored sample user whose password the bcryptEq comparison accepts. -/
def demoUser : User :=
  { id := "u-1", email := "ethan.hunt@imf.gov", password := "secret-pass" }

/-- The credential payload of the sample user. -/
def demoInput : UserInput :=
  { email := "ethan.hunt@imf.gov", password := "secret-pass" }

/-- A concrete gadget-route handler, used to show that middleware
failures do not depend on (and never execute) the handler. -/
def demoHandler : String → Except AppError String := fun uid => Except.ok uid

/-! ### Claim C2: decommission -/

/-- Claim C2: for every gadget id, decommission fails with NotFound (404)
if no gadget with that id exists, fails with BadRequest (400) if the
status is already Decommissioned, and otherwise sets status to
Decommissioned and stamps decommissionedAt with the current time in the
single repository transition applyDecommission; a second decommission of
the same gadget then fails with BadRequest. -/
theorem decommission_lifecycle_spec (store : List Gadget) (id : String)
    (now later : Nat) :
    gadgetNotFound.statusCode = 404 ∧
    alreadyDecommissioned.statusCode = 400 ∧
    (findById store id = none →
      decommissionGadget store id now = (Except.error gadgetNotFound, store)) ∧
    (∀ g, findById store id = some g → g.status = GadgetStatus.Decommissioned →
      decommissionGadget store id now =
        (Except.error alreadyDecommissioned, store)) ∧
    (∀ g, findById store id = some g → g.status ≠ GadgetStatus.Decommissioned →
      (decommissionGadget store id now).1 =
          Except.ok (some (applyDecommission now g)) ∧
      (applyDecommission now g).status = GadgetStatus.Decommissioned ∧
      (applyDecommission now g).decommissionedAt = some now ∧
      (decommissionGadget (decommissionGadget store id now).2 id later).1 =
          Except.error alreadyDecommissioned) := by
  refine ⟨rfl, rfl, ?_, ?_, ?_⟩
  · intro h
    simp [decommissionGadget, h]
  · intro g hg hs
    simp [decommissionGadget, hg, hs]
  · intro g hg hs
    have hstore : (decommissionGadget store id now).2 =
        updateWhere store id (applyDecommission now) := by
      simp [decommissionGadget, hg, hs, repoDecommission]
    have hfind : findById (updateWhere store id (applyDecommission now)) id =
        some (applyDecommission now g) := by
      rw [findById_updateWhere store id (applyDecommission now) (fun g => rfl), hg]; rfl
    refine ⟨?_, rfl, rfl, ?_⟩
    · simp [decommissionGadget, hg, hs, repoDecommission]
    · rw [hstore]
      simp [decommissionGadget, hfind, applyDecommission]

/-- Witness for C2: a concrete Available gadget is decommissioned at time
5 and a second decommission fails with the BadRequest error. -/
theorem decommission_lifecycle_spec_witness :
    (decommissionGadget [g0] "g-1" 5).1 =
        Except.ok (some (applyDecommission 5 g0)) ∧
    (applyDecommission 5 g0).status = GadgetStatus.Decommissioned ∧
    (applyDecommission 5 g0).decommissionedAt = some 5 ∧
    (decommissionGadget (decommissionGadget [g0] "g-1" 5).2 "g-1" 9).1 =
        Except.error alreadyDecommissioned :=
  (decommission_lifecycle_spec [g0] "g-1" 5 9).2.2.2.2 g0 (by decide) (by decide)

/-! ### Claim C3: selfDestruct -/

/-- Claim C3: for every gadget id, selfDestruct fails with NotFound (404)
if no gadget with that id exists, fails with BadRequest (400) if the
status is already Destroyed, and otherwise sets status to Destroyed and
returns the updated record together with a freshly generated confirmation
code of exactly 6 characters, all digits; a second selfDestruct of the
same gadget fails with BadRequest. -/
theorem selfDestruct_lifecycle_spec (store : List Gadget) (id : String)
    (seed seed2 : Nat → Nat) :
    gadgetNotFound.statusCode = 404 ∧
    alreadyDestroyed.statusCode = 400 ∧
    (findById store id = none →
      triggerSelfDestruct store id seed = (Except.error gadgetNotFound, store)) ∧
    (∀ g, findById store id = some g → g.status = GadgetStatus.Destroyed →
      triggerSelfDestruct store id seed =
        (Except.error alreadyDestroyed, store)) ∧
    (∀ g, findById store id = some g → g.status ≠ GadgetStatus.Destroyed →
      (triggerSelfDestruct store id seed).1 =
        Except.ok { gadget := some (applySelfDestruct g),
                    confirmationCode := generateConfirmationCode seed } ∧
      (applySelfDestruct g).status = GadgetStatus.Destroyed ∧
      (generateConfirmationCode seed).length = 6 ∧
      (∀ c ∈ (generateConfirmationCode seed).toList, c.isDigit = true) ∧
      (triggerSelfDestruct (triggerSelfDestruct store id seed).2 id seed2).1 =
        Except.error alreadyDestroyed) := by
  refine ⟨rfl, rfl, ?_, ?_, ?_⟩
  · intro h
    simp [triggerSelfDestruct, h]
  · intro g hg hs
    simp [triggerSelfDestruct, hg, hs]
  · intro g hg hs
    have hstore : (triggerSelfDestruct store id seed).2 =
        updateWhere store id applySelfDestruct := by
      simp [triggerSelfDestruct, hg, hs, repoSelfDestruct]
    have hfind : findById (updateWhere store id applySelfDestruct) id =
        some (applySelfDestruct g) := by
      rw [findById_updateWhere store id applySelfDestruct (fun g => rfl), hg]; rfl
    refine ⟨?_, rfl, generateConfirmationCode_length seed,
            generateConfirmationCode_digits seed, ?_⟩
    · simp [triggerSelfDestruct, hg, hs, repoSelfDestruct]
    · rw [hstore]
      simp [triggerSelfDestruct, hfind, applySelfDestruct]

/-- Witness for C3: self-destructing a concrete Available gadget succeeds
with the 6-digit code of the sample random source, and a second
selfDestruct fails with the BadRequest error. -/
theorem selfDestruct_lifecycle_spec_witness :
    (triggerSelfDestruct [g0] "g-1" seed0).1 =
      Except.ok { gadget := some (applySelfDestruct g0),
                  confirmationCode := generateConfirmationCode seed0 } ∧
    (applySelfDestruct g0).status = GadgetStatus.Destroyed ∧
    (generateConfirmationCode seed0).length = 6 ∧
    (∀ c ∈ (generateConfirmationCode seed0).toList, c.isDigit = true) ∧
    (triggerSelfDestruct (triggerSelfDestruct [g0] "g-1" seed0).2 "g-1" seed0).1 =
      Except.error alreadyDestroyed :=
  (selfDestruct_lifecycle_spec [g0] "g-1" seed0 seed0).2.2.2.2 g0
    (by decide) (by decide)

/-! ### Claim C4: the decommissionedAt/status invariant -/

/-- Counterexample to C4 as stated: decommission followed by selfDestruct
on the same concrete gadget yields a gadget whose decommissionedAt is
non-null while its status is Destroyed, not Decommissioned — the
selfDestruct repository write only touches status. -/
theorem decommissionedAt_iff_counterexample :
    (decommissionGadget [g0] "g-1" 3).1 =
        Except.ok (some (applyDecommission 3 g0)) ∧
    (triggerSelfDestruct (decommissionGadget [g0] "g-1" 3).2 "g-1" seed0).1 =
        Except.ok { gadget := some (applySelfDestruct (applyDecommission 3 g0)),
                    confirmationCode := "000000" } ∧
    (applySelfDestruct (applyDecommission 3 g0)).status =
        GadgetStatus.Destroyed ∧
    (applySelfDestruct (applyDecommission 3 g0)).status ≠
        GadgetStatus.Decommissioned ∧
    (applySelfDestruct (applyDecommission 3 g0)).decommissionedAt = some 3 := by
  refine ⟨rfl, rfl, rfl, by decide, rfl⟩

/-- Claim C4 (amended): for every gadget reachable from a freshly created
gadget via the dedicated lifecycle operations, status Decommissioned
implies a non-null decommissionedAt; the converse fails, since
selfDestruct preserves a non-null decommissionedAt while setting status
to Destroyed. -/
theorem lifecycle_decommissionedAt_amended (id name codename : String)
    (g : Gadget) (h : LifecycleReachable (mkGadget id name codename) g) :
    g.status = GadgetStatus.Decommissioned → g.decommissionedAt ≠ none := by
  induction h with
  | refl =>
      intro hs
      exact absurd hs (by simp [mkGadget])
  | tail hab step ih =>
      cases step with
      | decommission t gg hgg =>
          intro _
          simp [applyDecommission]
      | selfDestruct gg hgg =>
          intro hs
          exact absurd hs (by simp [applySelfDestruct])

/-- Witness for C4 (amended): a concrete freshly created gadget reaches
its decommissioned state in one step and there the implication yields a
non-null decommissionedAt. -/
theorem lifecycle_decommissionedAt_amended_witness :
    (applyDecommission 3 (mkGadget "g-9" "Drone" "The Swift Falcon")).decommissionedAt ≠ none :=
  lifecycle_decommissionedAt_amended "g-9" "Drone" "The Swift Falcon" _
    (Relation.ReflTransGen.single
      (LifecycleStep.decommission 3 _ (by decide))) (by decide)

/-! ### Claim C1: the no-op status update -/

/-- A partial update payload carrying exactly one field, a status. -/
def statusOnly (s : GadgetStatus) : GadgetUpdateInput := { status := some s }

/-- Counterexample to C1 as stated: updating a concrete gadget with a
payload whose status equals its current status succeeds with the record
returned unchanged; it is not rejected with BadRequest. -/
theorem noop_status_update_counterexample :
    g0.status = GadgetStatus.Available ∧
    updateGadget [g0] "g-1" (statusOnly GadgetStatus.Available) =
      (Except.ok g0, [g0]) := by
  refine ⟨rfl, rfl⟩

/-- Claim C1 (amended): for every existing gadget, update with a payload
whose status equals the current status is accepted — the service has no
no-op guard — and returns the gadget unchanged. -/
theorem noop_status_update_accepted (store : List Gadget) (id : String)
    (g : Gadget) (h : findById store id = some g) :
    (updateGadget store id (statusOnly g.status)).1 = Except.ok g := by
  have happ : applyUpdate (statusOnly g.status) g = g := by
    cases g
    simp [applyUpdate, statusOnly]
  simp [updateGadget, repoUpdate, h, happ]

/-- Witness for C1 (amended): the accepted no-op status update on the
concrete sample gadget. -/
theorem noop_status_update_accepted_witness :
    (updateGadget [g0] "g-1" (statusOnly g0.status)).1 = Except.ok g0 :=
  noop_status_update_accepted [g0] "g-1" g0 (by decide)

/-! ### Claim C9: update as a partial merge with NotFound on a missing id -/

/-- Claim C9: update fails with NotFound (404) when no gadget with the id
exists; when the gadget exists it applies exactly the supplied fields and
returns the updated record, leaving every unsupplied field unchanged. -/
theorem update_partial_merge_spec (store : List Gadget) (id : String)
    (u : GadgetUpdateInput) :
    gadgetNotFound.statusCode = 404 ∧
    (findById store id = none →
      updateGadget store id u = (Except.error gadgetNotFound, store)) ∧
    (∀ g, findById store id = some g →
      updateGadget store id u =
        (Except.ok (applyUpdate u g), updateWhere store id (applyUpdate u)) ∧
      (u.name = none → (applyUpdate u g).name = g.name) ∧
      (u.codename = none → (applyUpdate u g).codename = g.codename) ∧
      (u.status = none → (applyUpdate u g).status = g.status) ∧
      (u.decommissionedAt = none →
        (applyUpdate u g).decommissionedAt = g.decommissionedAt) ∧
      (∀ n, u.name = some n → (applyUpdate u g).name = n) ∧
      (∀ s, u.status = some s → (applyUpdate u g).status = s)) := by
  refine ⟨rfl, ?_, ?_⟩
  · intro h
    simp [updateGadget, repoUpdate, h]
  · intro g hg
    refine ⟨by simp [updateGadget, repoUpdate, hg], ?_, ?_, ?_, ?_, ?_, ?_⟩
    · intro hn; simp [applyUpdate, hn]
    · intro hc; simp [applyUpdate, hc]
    · intro hs; simp [applyUpdate, hs]
    · intro hd; simp [applyUpdate, hd]
    · intro n hn; simp [applyUpdate, hn]
    · intro s hs; simp [applyUpdate, hs]

/-- Witness for C9: a concrete partial update supplying only a new name
keeps the other fields of the sample gadget and returns the merged
record. -/
theorem update_partial_merge_spec_witness :
    updateGadget [g0] "g-1" { name := some "Voice Modulator" } =
      (Except.ok (applyUpdate { name := some "Voice Modulator" } g0),
       updateWhere [g0] "g-1" (applyUpdate { name := some "Voice Modulator" })) ∧
    (applyUpdate { name := some "Voice Modulator" } g0).codename = g0.codename ∧
    (applyUpdate { name := some "Voice Modulator" } g0).status = g0.status ∧
    (applyUpdate { name := some "Voice Modulator" } g0).decommissionedAt =
        g0.decommissionedAt ∧
    (applyUpdate { name := some "Voice Modulator" } g0).name = "Voice Modulator" := by
  have h := (update_partial_merge_spec [g0] "g-1"
      { name := some "Voice Modulator" }).2.2 g0 (by decide)
  exact ⟨h.1, h.2.2.1 rfl, h.2.2.2.1 rfl, h.2.2.2.2.1 rfl, h.2.2.2.2.2.1 _ rfl⟩

/-! ### Claim C5: the authentication gate -/

/-- Counterexample to C5 as stated: a verification failure whose thrown
error is neither a JsonWebTokenError nor a TokenExpiredError (here the
NotBeforeError the jsonwebtoken library can raise) surfaces with status
code 500, not 401. -/
theorem auth_unexpected_error_counterexample :
    gadgetRoutePipeline (fun _ => VerifyResult.err "NotBeforeError")
        (some "session-cookie") demoHandler = Except.error authUnexpectedError ∧
    authUnexpectedError.statusCode = 500 ∧ authUnexpectedError.statusCode ≠ 401 := by
  refine ⟨rfl, rfl, by decide⟩

/-- Claim C5 (amended): on every gadget-route request, a missing token, a
malformed/invalid-signature token, an expired token and a decoded payload
without id all surface as 401, while an unexpected verification error
surfaces as the 500 InternalError; in every failure case the pipeline
result is the middleware error alone, for any handler, so no service or
repository logic runs. -/
theorem auth_gate_spec {α : Type} (verify : String → VerifyResult)
    (handler : String → Except AppError α) (token : Option String) :
    noTokenError.statusCode = 401 ∧
    invalidTokenError.statusCode = 401 ∧
    expiredTokenError.statusCode = 401 ∧
    invalidTokenStructure.statusCode = 401 ∧
    authUnexpectedError.statusCode = 500 ∧
    (gadgetRoutePipeline verify none handler = Except.error noTokenError) ∧
    (∀ t, token = some t → verify t = VerifyResult.err "JsonWebTokenError" →
      gadgetRoutePipeline verify token handler = Except.error invalidTokenError) ∧
    (∀ t, token = some t → verify t = VerifyResult.err "TokenExpiredError" →
      gadgetRoutePipeline verify token handler = Except.error expiredTokenError) ∧
    (∀ t n, token = some t → verify t = VerifyResult.err n →
      n ≠ "JsonWebTokenError" → n ≠ "TokenExpiredError" →
      gadgetRoutePipeline verify token handler = Except.error authUnexpectedError) ∧
    (∀ t, token = some t → verify t = VerifyResult.ok none →
      gadgetRoutePipeline verify token handler =
        Except.error invalidTokenStructure) ∧
    (∀ e, verifyJwtToken verify token = Except.error e →
      ∀ handler2 : String → Except AppError α,
        gadgetRoutePipeline verify token handler2 = Except.error e) := by
  refine ⟨rfl, rfl, rfl, rfl, rfl, rfl, ?_, ?_, ?_, ?_, ?_⟩
  · rintro t rfl hv
    simp [gadgetRoutePipeline, verifyJwtToken, hv]
  · rintro t rfl hv
    simp [gadgetRoutePipeline, verifyJwtToken, hv]
  · rintro t n rfl hv h1 h2
    simp [gadgetRoutePipeline, verifyJwtToken, hv, h1, h2]
  · rintro t rfl hv
    simp [gadgetRoutePipeline, verifyJwtToken, hv]
  · intro e he handler2
    simp [gadgetRoutePipeline, he]

/-- Witness for C5 (amended): a concrete malformed-token request fails
with the 401 invalid-token error. -/
theorem auth_gate_spec_witness :
    gadgetRoutePipeline (fun _ => VerifyResult.err "JsonWebTokenError")
        (some "tampered") demoHandler = Except.error invalidTokenError :=
  (auth_gate_spec (fun _ => VerifyResult.err "JsonWebTokenError")
      demoHandler (some "tampered")).2.2.2.2.2.2.1 "tampered" rfl rfl

/-! ### Claim C6: token delivery on sign-in -/

/-- The full HTTP response of the sample successful sign-in. -/
def demoSignInResponse : SignInHttpResponse :=
  { statusCode := 200,
    cookie :=
      { cookieName := "token", value := generateToken "u-1",
        options :=
          { httpOnly := true, secure := false,
            sameSite := "strict", maxAge := 3600000 } },
    bodySuccess := true,
    bodyMessage := "User successfully logged in",
    bodyDataUser := { id := "u-1", email := "ethan.hunt@imf.gov" },
    bodyDataToken := generateToken "u-1" }

/-- Counterexample to C6 as stated: on a concrete successful sign-in the
response body data carries the session token itself (the controller
serializes the object of user and token), so the token is not delivered
only through the cookie. -/
theorem token_in_signin_body_counterexample :
    signInController bcryptEq [demoUser] demoInput false =
        Except.ok demoSignInResponse ∧
    demoSignInResponse.bodyDataToken = demoSignInResponse.cookie.value := by
  exact ⟨rfl, rfl⟩

/-- Claim C6 (amended): on every successful sign-in the session token is
set as an HTTP-only, sameSite-strict cookie named token, and the same
token is additionally included in the response body data. -/
theorem signin_cookie_and_body_spec (compare : String → String → Bool)
    (store : List User) (input : UserInput) (isProduction : Bool)
    (resp : SignInHttpResponse)
    (h : signInController compare store input isProduction = Except.ok resp) :
    resp.cookie.cookieName = "token" ∧
    resp.cookie.options.httpOnly = true ∧
    resp.cookie.options.sameSite = "strict" ∧
    resp.bodyDataToken = resp.cookie.value := by
  unfold signInController at h
  revert h
  cases userSignIn compare store input with
  | error e => intro h; cases h
  | ok out =>
      intro h
      injection h with h
      subst h
      exact ⟨rfl, rfl, rfl, rfl⟩

/-- Witness for C6 (amended): the concrete successful sample sign-in. -/
theorem signin_cookie_and_body_spec_witness :
    demoSignInResponse.cookie.cookieName = "token" ∧
    demoSignInResponse.cookie.options.httpOnly = true ∧
    demoSignInResponse.cookie.options.sameSite = "strict" ∧
    demoSignInResponse.bodyDataToken = demoSignInResponse.cookie.value :=
  signin_cookie_and_body_spec bcryptEq [demoUser] demoInput false
    demoSignInResponse rfl

/-! ### Claim C7: signIn -/

/-- Claim C7: signIn fails with NotFound (404) when no user carries the
email, fails with Unauthorized (401) when the hash comparison fails, and
otherwise returns the password-omitted identity together with a token
whose payload id is the user identifier and whose expiry is the fixed
1-day option. -/
theorem signin_service_spec (compare : String → String → Bool)
    (store : List User) (input : UserInput) :
    userNotFound.statusCode = 404 ∧
    invalidCredentials.statusCode = 401 ∧
    (findByEmail store input.email = none →
      userSignIn compare store input = Except.error userNotFound) ∧
    (∀ u, findByEmail store input.email = some u →
      compare input.password u.password = false →
      userSignIn compare store input = Except.error invalidCredentials) ∧
    (∀ u, findByEmail store input.email = some u →
      compare input.password u.password = true →
      userSignIn compare store input =
        Except.ok (omitPassword u, generateToken u.id) ∧
      (generateToken u.id).payloadId = u.id ∧
      (generateToken u.id).expiresIn = "1d") := by
  refine ⟨rfl, rfl, ?_, ?_, ?_⟩
  · intro h
    simp [userSignIn, h]
  · intro u hu hc
    simp [userSignIn, hu, hc]
  · intro u hu hc
    exact ⟨by simp [userSignIn, hu, hc], rfl, rfl⟩

/-- Witness for C7: the sample user signs in with the matching
credential; an unknown email fails with NotFound. -/
theorem signin_service_spec_witness :
    userSignIn bcryptEq [demoUser] demoInput =
        Except.ok (omitPassword demoUser, generateToken demoUser.id) ∧
    (generateToken demoUser.id).payloadId = demoUser.id ∧
    (generateToken demoUser.id).expiresIn = "1d" :=
  (signin_service_spec bcryptEq [demoUser] demoInput).2.2.2.2 demoUser
    (by decide) (by decide)

/-! ### Claim C8: register -/

/-- Claim C8: registering an email that already exists fails with
Conflict (409) and writes nothing; otherwise exactly one new user is
persisted, carrying the hashed password, and the created identity is
returned with the password omitted; a second registration with the same
email then fails with Conflict. -/
theorem signup_spec (hash : String → String) (newId newId2 : String)
    (store : List User) (input : UserInput) :
    emailConflict.statusCode = 409 ∧
    (∀ u, findByEmail store input.email = some u →
      userSignUp hash newId store input = (Except.error emailConflict, store)) ∧
    (findByEmail store input.email = none →
      userSignUp hash newId store input =
        (Except.ok ({ id := newId, email := input.email } : UserView),
         store ++ [({ id := newId, email := input.email,
                      password := hash input.password } : User)]) ∧
      (store ++ [({ id := newId, email := input.email,
                    password := hash input.password } : User)]).length =
          store.length + 1 ∧
      (userSignUp hash newId2
          (store ++ [({ id := newId, email := input.email,
                        password := hash input.password } : User)]) input).1 =
          Except.error emailConflict) := by
  refine ⟨rfl, ?_, ?_⟩
  · intro u hu
    simp [userSignUp, hu]
  · intro h
    have hfind : findByEmail
        (store ++ [{ id := newId, email := input.email,
                     password := hash input.password }]) input.email =
        some { id := newId, email := input.email,
               password := hash input.password } :=
      findByEmail_append store _ input.email h (by simp)
    refine ⟨by simp [userSignUp, h, omitPassword], by simp, ?_⟩
    simp [userSignUp, hfind]

/-- Witness for C8: registering the sample credential on an empty store
creates exactly one user with the hashed password; registering it again
fails with Conflict. -/
theorem signup_spec_witness :
    userSignUp demoHash "u-7" [] demoInput =
      (Except.ok { id := "u-7", email := demoInput.email },
       [{ id := "u-7", email := demoInput.email,
          password := demoHash demoInput.password }]) ∧
    ([{ id := "u-7", email := demoInput.email,
        password := demoHash demoInput.password }] : List User).length = 0 + 1 ∧
    (userSignUp demoHash "u-8"
        [{ id := "u-7", email := demoInput.email,
           password := demoHash demoInput.password }] demoInput).1 =
        Except.error emailConflict := by
  have h := (signup_spec demoHash "u-7" "u-8" [] demoInput).2.2 (by decide)
  simpa using h

/-! ### Claim C10: validation on the PATCH gadget route -/

/-- A body name one character beyond the 255-character bound of the
update-gadget schema. -/
def longName : String := String.mk (List.replicate 256 'a')

/-- A syntactically valid UUID for the path parameter. -/
def uuid1 : String := "123e4567-e89b-12d3-a456-426614174000"

/-- A stored gadget addressed by the sample UUID. -/
def gU : Gadget :=
  { id := uuid1, name := "Old Name", codename := "The Calm Owl",
    status := GadgetStatus.Available, decommissionedAt := none }

set_option maxRecDepth 4000 in
/-- Claim C10 evaluated at the failing input: the PATCH route validates
only the path parameters, so a request whose body name has 256 characters
is never rejected by the validation layer — the handler runs and the
oversized name is persisted, although the body does violate the
update-gadget schema. -/
theorem patch_body_not_validated :
    longName.length = 256 ∧
    updateGadgetSchemaIssues { name := some longName } ≠ [] ∧
    patchGadgetRoute [gU] { id := some uuid1 } { name := some longName } =
      (Except.ok { gU with name := longName }, [{ gU with name := longName }]) := by
  refine ⟨by decide, by decide, rfl⟩

end ImfGadget
